import Mathlib

/-
Shallow embedding of the Tb-V0.01 trading bot core.

Sources embedded:
  - trade_config_1754639472293.py : class TradeConfig (the plan record and its
    setters / validation).  Persistence (save_config / load_config) is I/O with
    no effect on the in-memory record and is dropped; every setter's
    save_config call is a no-op here.
  - trade_bot.py : class TradeBot (namespace TB below).  Gateway calls are
    modelled as oracle inputs: the exchange manager never raises past its own
    handlers, every failure surfaces as None/False, so each venue call is an
    Option-valued response supplied per call site.
  - trade_bot_1754639472327.py : the duplicated divergent TradeBot
    (namespace TB2 below).  In that file cancel_trade and stop_monitoring are
    each defined twice in the class body; Python keeps the later definition,
    so TB2.cancel_trade embeds the second (effective) definition.

Prices and quantities are ℚ (the logic is comparison/ratio arithmetic whose
values here are exactly representable; no float-specific behaviour is used by
any claim).  Python truthiness of optional numbers / strings is modelled
explicitly by qtruthy / struthy.
-/

/-- Python truthiness of an optional float: None and 0.0 are falsy. -/
def qtruthy : Option ℚ → Bool
  | none => false
  | some x => decide (x ≠ 0)

/-- Python truthiness of an optional string: None and the empty string are falsy. -/
def struthy : Option String → Bool
  | none => false
  | some s => decide (s ≠ "")

/-- The TradeConfig record: user-declared plan fields plus mutable execution
state, exactly the attributes assigned in TradeConfig.reset. -/
structure TradeConfig where
  pair : Option String
  side : Option String
  amount : Option ℚ
  entry_price : Option ℚ
  leverage : Int
  tp1_price : Option ℚ
  tp1_percent : Option ℚ
  tp2_price : Option ℚ
  tp2_percent : Option ℚ
  tp3_price : Option ℚ
  tp3_percent : Option ℚ
  sl_price : Option ℚ
  breakeven_enabled : Bool
  breakeven_trigger : Option String
  breakeven_tp : Option String
  trailing_stop_enabled : Bool
  trailing_stop_percent : Option ℚ
  dry_run : Bool
  trade_active : Bool
  position_size : Option ℚ
  entry_filled : Bool
  tp1_filled : Bool
  tp2_filled : Bool
  tp3_filled : Bool
  breakeven_moved : Bool
  trailing_active : Bool
  highest_price : Option ℚ
deriving DecidableEq

namespace TradeConfig

/-- TradeConfig.reset: the default record (all fields as assigned in reset). -/
def reset : TradeConfig where
  pair := none
  side := none
  amount := none
  entry_price := none
  leverage := 1
  tp1_price := none
  tp1_percent := none
  tp2_price := none
  tp2_percent := none
  tp3_price := none
  tp3_percent := none
  sl_price := none
  breakeven_enabled := false
  breakeven_trigger := none
  breakeven_tp := none
  trailing_stop_enabled := false
  trailing_stop_percent := none
  dry_run := true
  trade_active := false
  position_size := none
  entry_filled := false
  tp1_filled := false
  tp2_filled := false
  tp3_filled := false
  breakeven_moved := false
  trailing_active := false
  highest_price := none

/-- TradeConfig.set_pair: normalize (append /USDT when no separator, uppercase)
and store; always succeeds. -/
def set_pair (c : TradeConfig) (pair : String) : TradeConfig × Bool :=
  let pair := if pair.contains '/' then pair else pair ++ ("/USDT")
  ({ c with pair := some (pair.toUpper) }, true)

/-- TradeConfig.set_side: accepts only long/short (lower-cased). -/
def set_side (c : TradeConfig) (side : String) : TradeConfig × Bool :=
  if side.toLower = ("long") ∨ side.toLower = ("short") then
    ({ c with side := some (side.toLower) }, true)
  else (c, false)

/-- TradeConfig.set_amount: accepts amount > 0. -/
def set_amount (c : TradeConfig) (amount : ℚ) : TradeConfig × Bool :=
  if 0 < amount then ({ c with amount := some amount }, true) else (c, false)

/-- TradeConfig.set_entry: accepts price > 0 (the source rejects 0). -/
def set_entry (c : TradeConfig) (price : ℚ) : TradeConfig × Bool :=
  if 0 < price then ({ c with entry_price := some price }, true) else (c, false)

/-- TradeConfig.set_tp: level must be 1..3, price > 0, percent in (0, 100]. -/
def set_tp (c : TradeConfig) (level : Nat) (price percent : ℚ) : TradeConfig × Bool :=
  if ¬ (level = 1 ∨ level = 2 ∨ level = 3) ∨ price ≤ 0 ∨ percent ≤ 0 ∨ 100 < percent then
    (c, false)
  else if level = 1 then
    ({ c with tp1_price := some price, tp1_percent := some percent }, true)
  else if level = 2 then
    ({ c with tp2_price := some price, tp2_percent := some percent }, true)
  else
    ({ c with tp3_price := some price, tp3_percent := some percent }, true)

/-- TradeConfig.set_sl: accepts price > 0. -/
def set_sl (c : TradeConfig) (price : ℚ) : TradeConfig × Bool :=
  if 0 < price then ({ c with sl_price := some price }, true) else (c, false)

/-- TradeConfig.set_leverage: accepts 1 ≤ leverage ≤ 100. -/
def set_leverage (c : TradeConfig) (leverage : Int) : TradeConfig × Bool :=
  if 1 ≤ leverage ∧ leverage ≤ 100 then
    ({ c with leverage := leverage }, true)
  else (c, false)

/-- TradeConfig.set_dry_run: unconditional. -/
def set_dry_run (c : TradeConfig) (enabled : Bool) : TradeConfig :=
  { c with dry_run := enabled }

/-- TradeConfig.set_trailing_stop: accepts 0 < percent ≤ 50. -/
def set_trailing_stop (c : TradeConfig) (percent : ℚ) : TradeConfig × Bool :=
  if 0 < percent ∧ percent ≤ 50 then
    ({ c with trailing_stop_enabled := true, trailing_stop_percent := some percent }, true)
  else (c, false)

/-- The running total_tp_percent computed inside is_valid_for_trading: a level
contributes its percent when both its price and its percent are truthy. -/
def total_tp_percent (c : TradeConfig) : ℚ :=
  (if qtruthy c.tp1_price ∧ qtruthy c.tp1_percent then c.tp1_percent.getD 0 else 0) +
  (if qtruthy c.tp2_price ∧ qtruthy c.tp2_percent then c.tp2_percent.getD 0 else 0) +
  (if qtruthy c.tp3_price ∧ qtruthy c.tp3_percent then c.tp3_percent.getD 0 else 0)

/-- TradeConfig.is_valid_for_trading: requires truthy pair, side, amount, a
non-None entry price (0 allowed, meaning market), and total TP percent ≤ 100. -/
def is_valid_for_trading (c : TradeConfig) : Bool × String :=
  if ¬ struthy c.pair then (false, ("Pair not set"))
  else if ¬ struthy c.side then (false, ("Side not set"))
  else if ¬ qtruthy c.amount then (false, ("Amount not set"))
  else if c.entry_price = none then
    (false, ("Entry price not set (use market order or set specific price)"))
  else if 100 < total_tp_percent c then
    (false, ("Total TP percentages cannot exceed 100%"))
  else (true, ("Configuration valid"))

/-- TradeConfig.reset_trade_state: clears the execution-state fields only. -/
def reset_trade_state (c : TradeConfig) : TradeConfig :=
  { c with
    trade_active := false
    position_size := none
    entry_filled := false
    tp1_filled := false
    tp2_filled := false
    tp3_filled := false
    breakeven_moved := false
    trailing_active := false
    highest_price := none }

end TradeConfig

/-- Logical result fields of a gateway order-status query (status, filled,
average), as read by the bot. -/
structure OrderInfo where
  status : String
  filled : ℚ
  average : ℚ
deriving DecidableEq

/-- TradeBot state: the plan record, the monitoring flag, and the tracked
order-handle map (logical role to venue order id). -/
structure BotState where
  config : TradeConfig
  monitoring : Bool
  orders : List (String × Nat)
deriving DecidableEq

/-- Per-tick inputs to the monitor: get_ticker responses for the up-to-three
fetches one tick performs, order-status responses, and create-order responses
for each create call site reachable within the tick (None = gateway failure). -/
structure TickIn where
  price : Option ℚ
  entryTicker : Option ℚ
  tpTicker : Option ℚ
  entryStatus : Option OrderInfo
  tp1Status : Option OrderInfo
  tp2Status : Option OrderInfo
  tp3Status : Option OrderInfo
  stopOnFill : Option Nat
  tpCreate1 : Option Nat
  tpCreate2 : Option Nat
  tpCreate3 : Option Nat
  stopBe : Option Nat
  stopTrail : Option Nat
deriving DecidableEq

/-- Lookup in the order-handle map (dict membership / access). -/
def ordGet (k : String) (l : List (String × Nat)) : Option Nat :=
  (l.find? (fun e => decide (e.1 = k))).map (fun e => e.2)

/-- Dict assignment: replaces any existing binding for the key. -/
def ordSet (k : String) (v : Nat) (l : List (String × Nat)) : List (String × Nat) :=
  l.filter (fun e => decide (e.1 ≠ k)) ++ [(k, v)]

/-- Dict deletion. -/
def ordDel (k : String) (l : List (String × Nat)) : List (String × Nat) :=
  l.filter (fun e => decide (e.1 ≠ k))

namespace TB

/-- TradeBot._place_stop_loss: requires truthy sl_price and position_size;
no-op success in dry run; in live mode submits a stop order (the oracle
stopCreate is the venue response) and records the handle under sl. -/
def place_stop_loss (s : BotState) (stopCreate : Option Nat) : BotState × Bool :=
  if ¬ qtruthy s.config.sl_price ∨ ¬ qtruthy s.config.position_size then (s, false)
  else if s.config.dry_run then (s, true)
  else if struthy s.config.pair ∧ qtruthy s.config.position_size ∧ qtruthy s.config.sl_price then
    match stopCreate with
    | some oid => ({ s with orders := ordSet ("sl") oid s.orders }, true)
    | none => (s, false)
  else (s, false)

/-- TradeBot._place_take_profit: requires the level's truthy price and percent
and a truthy position_size; the submitted quantity is
position_size * percent / 100 (not tracked here beyond the handle); no-op
success in dry run. -/
def place_take_profit (s : BotState) (level : Nat) (tpCreate : Option Nat) : BotState × Bool :=
  let tp : Option ℚ × Option ℚ :=
    if level = 1 then (s.config.tp1_price, s.config.tp1_percent)
    else if level = 2 then (s.config.tp2_price, s.config.tp2_percent)
    else if level = 3 then (s.config.tp3_price, s.config.tp3_percent)
    else (none, none)
  if ¬ qtruthy tp.1 ∨ ¬ qtruthy tp.2 ∨ ¬ qtruthy s.config.position_size then (s, false)
  else if s.config.dry_run then (s, true)
  else if struthy s.config.pair then
    match tpCreate with
    | some oid => ({ s with orders := ordSet (("tp") ++ toString level) oid s.orders }, true)
    | none => (s, false)
  else (s, false)

/-- TradeBot._update_stop_loss: cancel and drop the tracked sl handle (only
when one exists, live mode, truthy pair), overwrite sl_price, then call
_place_stop_loss.  Also returns the list of cancelled order ids. -/
def update_stop_loss (s : BotState) (new_price : ℚ) (stopCreate : Option Nat) :
    BotState × Bool × List Nat :=
  let step1 : BotState × List Nat :=
    match ordGet ("sl") s.orders with
    | some oid =>
      if ¬ s.config.dry_run ∧ struthy s.config.pair then
        ({ s with orders := ordDel ("sl") s.orders }, [oid])
      else (s, [])
    | none => (s, [])
  let s2 : BotState := { step1.1 with config := { step1.1.config with sl_price := some new_price } }
  let pr := place_stop_loss s2 stopCreate
  (pr.1, pr.2, step1.2)

/-- TradeBot._place_all_take_profits (trade_bot.py): place each level whose
price is truthy. -/
def place_all_take_profits (s : BotState) (t : TickIn) : BotState :=
  let s := if qtruthy s.config.tp1_price then (place_take_profit s 1 t.tpCreate1).1 else s
  let s := if qtruthy s.config.tp2_price then (place_take_profit s 2 t.tpCreate2).1 else s
  let s := if qtruthy s.config.tp3_price then (place_take_profit s 3 t.tpCreate3).1 else s
  s

/-- TradeBot._check_entry_fill: in dry run, simulate the fill when the tick
price crosses the entry favorably (long: price ≤ entry, short: price ≥ entry);
in live mode, query the entry handle status.  On a fill: set entry_filled, set
position_size, then place the stop loss and all take profits.  A None entry
price would raise in the comparison and be caught: no mutation. -/
def check_entry_fill (s : BotState) (t : TickIn) : BotState :=
  if s.config.dry_run then
    if ¬ struthy s.config.pair then s
    else
      match t.entryTicker with
      | none => s
      | some p =>
        match s.config.entry_price with
        | none => s
        | some e =>
          if (s.config.side = some ("long") ∧ p ≤ e) ∨
             (s.config.side = some ("short") ∧ e ≤ p) then
            let s1 : BotState :=
              { s with config :=
                { s.config with entry_filled := true, position_size := s.config.amount } }
            let s2 := (place_stop_loss s1 t.stopOnFill).1
            place_all_take_profits s2 t
          else s
  else
    if (ordGet ("entry") s.orders).isSome ∧ struthy s.config.pair then
      match t.entryStatus with
      | some o =>
        if o.status = ("closed") then
          let s1 : BotState :=
            { s with config :=
              { s.config with entry_filled := true, position_size := some o.filled } }
          let s2 := (place_stop_loss s1 t.stopOnFill).1
          place_all_take_profits s2 t
        else s
      | none => s
    else s

/-- TradeBot._check_tp_fills: dry run simulates fills from price crossings and
only sets the fill flags (position_size is not touched); live mode queries the
tracked tp handles and on closed status sets the flag and drops the handle. -/
def check_tp_fills (s : BotState) (t : TickIn) : BotState :=
  if s.config.dry_run then
    if ¬ struthy s.config.pair then s
    else
      match t.tpTicker with
      | none => s
      | some p =>
        let c := s.config
        let c :=
          if qtruthy c.tp1_price ∧ ¬ c.tp1_filled ∧
             ((c.side = some ("long") ∧ c.tp1_price.getD 0 ≤ p) ∨
              (c.side = some ("short") ∧ p ≤ c.tp1_price.getD 0)) then
            { c with tp1_filled := true } else c
        let c :=
          if qtruthy c.tp2_price ∧ ¬ c.tp2_filled ∧
             ((c.side = some ("long") ∧ c.tp2_price.getD 0 ≤ p) ∨
              (c.side = some ("short") ∧ p ≤ c.tp2_price.getD 0)) then
            { c with tp2_filled := true } else c
        let c :=
          if qtruthy c.tp3_price ∧ ¬ c.tp3_filled ∧
             ((c.side = some ("long") ∧ c.tp3_price.getD 0 ≤ p) ∨
              (c.side = some ("short") ∧ p ≤ c.tp3_price.getD 0)) then
            { c with tp3_filled := true } else c
        { s with config := c }
  else
    let s :=
      if (ordGet ("tp1") s.orders).isSome ∧ struthy s.config.pair then
        match t.tp1Status with
        | some o =>
          if o.status = ("closed") then
            { s with config := { s.config with tp1_filled := true },
                     orders := ordDel ("tp1") s.orders }
          else s
        | none => s
      else s
    let s :=
      if (ordGet ("tp2") s.orders).isSome ∧ struthy s.config.pair then
        match t.tp2Status with
        | some o =>
          if o.status = ("closed") then
            { s with config := { s.config with tp2_filled := true },
                     orders := ordDel ("tp2") s.orders }
          else s
        | none => s
      else s
    let s :=
      if (ordGet ("tp3") s.orders).isSome ∧ struthy s.config.pair then
        match t.tp3Status with
        | some o =>
          if o.status = ("closed") then
            { s with config := { s.config with tp3_filled := true },
                     orders := ordDel ("tp3") s.orders }
          else s
        | none => s
      else s
    s

/-- TradeBot._check_breakeven: when the configured trigger TP flag is set and
the entry price is truthy, move the stop loss to the entry price; mark
breakeven_moved only when the update succeeded.  The second component is the
list of stop-loss prices this step applied. -/
def check_breakeven (s : BotState) (stopCreate : Option Nat) : BotState × List ℚ :=
  let trigger_hit :=
    (s.config.breakeven_trigger = some ("tp1") ∧ s.config.tp1_filled) ∨
    (s.config.breakeven_trigger = some ("tp2") ∧ s.config.tp2_filled) ∨
    (s.config.breakeven_trigger = some ("tp3") ∧ s.config.tp3_filled)
  match s.config.entry_price with
  | none => (s, [])
  | some e =>
    if trigger_hit ∧ e ≠ 0 then
      let r := update_stop_loss s e stopCreate
      (if r.2.1 then { r.1 with config := { r.1.config with breakeven_moved := true } }
       else r.1, [e])
    else (s, [])

/-- TradeBot._handle_trailing_stop (trade_bot.py): guarded only by truthy
trailing_stop_percent and sl_price (no TP-fill precondition).  On a new
extreme it stores the extreme, sets trailing_active, computes the candidate
price * (1 ∓ percent/100) and applies it when strictly better than the current
stop.  The else branch of the side test covers every non-long side, as in the
source.  Second component: stop-loss prices applied by this step. -/
def handle_trailing_stop (s : BotState) (current_price : ℚ) (stopCreate : Option Nat) :
    BotState × List ℚ :=
  if ¬ qtruthy s.config.trailing_stop_percent ∨ ¬ qtruthy s.config.sl_price then (s, [])
  else
    let pct := s.config.trailing_stop_percent.getD 0
    let sl := s.config.sl_price.getD 0
    if s.config.side = some ("long") then
      if ¬ qtruthy s.config.highest_price ∨ s.config.highest_price.getD 0 < current_price then
        let s1 : BotState :=
          { s with config :=
            { s.config with highest_price := some current_price, trailing_active := true } }
        let new_sl := current_price - current_price * (pct / 100)
        if sl < new_sl then ((update_stop_loss s1 new_sl stopCreate).1, [new_sl])
        else (s1, [])
      else (s, [])
    else
      if ¬ qtruthy s.config.highest_price ∨ current_price < s.config.highest_price.getD 0 then
        let s1 : BotState :=
          { s with config :=
            { s.config with highest_price := some current_price, trailing_active := true } }
        let new_sl := current_price + current_price * (pct / 100)
        if new_sl < sl then ((update_stop_loss s1 new_sl stopCreate).1, [new_sl])
        else (s1, [])
      else (s, [])

/-- TradeBot._manage_position: TP fills, then break-even (only while enabled
and not yet moved), then trailing (only while enabled).  Collects the applied
stop-loss updates of the tick. -/
def manage_position (s : BotState) (current_price : ℚ) (t : TickIn) : BotState × List ℚ :=
  let s := check_tp_fills s t
  let r1 : BotState × List ℚ :=
    if s.config.breakeven_enabled ∧ ¬ s.config.breakeven_moved then
      check_breakeven s t.stopBe
    else (s, [])
  let r2 : BotState × List ℚ :=
    if r1.1.config.trailing_stop_enabled then
      handle_trailing_stop r1.1 current_price t.stopTrail
    else (r1.1, [])
  (r2.1, r1.2 ++ r2.2)

/-- TradeBot._monitor_trade: one monitor tick.  Returns the new state and the
stop-loss updates applied during the tick. -/
def monitor_trade (s : BotState) (t : TickIn) : BotState × List ℚ :=
  if ¬ s.config.trade_active then (s, [])
  else if ¬ struthy s.config.pair then (s, [])
  else
    match t.price with
    | none => (s, [])
    | some p =>
      let s1 := if ¬ s.config.entry_filled then check_entry_fill s t else s
      if s1.config.entry_filled then manage_position s1 p t else (s1, [])

/-- A run of consecutive monitor ticks, concatenating the applied stop-loss
updates. -/
def run : BotState → List TickIn → BotState × List ℚ
  | s, [] => (s, [])
  | s, t :: ts =>
    let r := monitor_trade s t
    let rest := run r.1 ts
    (rest.1, r.2 ++ rest.2)

/-- The list of states visited by a run of monitor ticks (including the
initial state). -/
def states : BotState → List TickIn → List BotState
  | s, [] => [s]
  | s, t :: ts => s :: states (monitor_trade s t).1 ts

/-- The claim shape for stop-loss monotonicity on a long position: each applied
update is at least the stop in force when it is applied. -/
def monotoneUpdates : ℚ → List ℚ → Bool
  | _, [] => true
  | cur, x :: xs => decide (cur ≤ x) && monotoneUpdates x xs

/-- Number of false-to-true edges in a boolean trace. -/
def risingEdges : List Bool → Nat
  | [] => 0
  | [_] => 0
  | a :: b :: rest => (if a = false ∧ b = true then 1 else 0) + risingEdges (b :: rest)

/-- TradeBot.cancel_trade (trade_bot.py): returns True immediately when no
trade is active; otherwise best-effort cancels the tracked orders, resets the
execution state, clears the handle map and stops monitoring. -/
def cancel_trade (s : BotState) : BotState × Bool :=
  if ¬ s.config.trade_active then (s, true)
  else
    ({ s with config := s.config.reset_trade_state, orders := [], monitoring := false }, true)

/-- Gateway responses consumed by place_trade: the direct fetch_ticker used to
resolve a market entry, and the create_limit_order response for the entry. -/
structure PlaceEnv where
  marketTicker : Option ℚ
  entryCreate : Option Nat
deriving DecidableEq

/-- TradeBot._place_entry_order: resolve entry_price = 0 to the market price
(failure of that fetch fails the submission); dry run marks the fill and sets
position_size = amount immediately; live mode submits a limit order when pair,
amount and entry price are truthy. -/
def place_entry_order (s : BotState) (env : PlaceEnv) : BotState × Bool :=
  match (if s.config.entry_price = some 0 then
           match env.marketTicker with
           | some p => some { s with config := { s.config with entry_price := some p } }
           | none => none
         else some s) with
  | none => (s, false)
  | some s1 =>
    if s1.config.dry_run then
      ({ s1 with config :=
          { s1.config with entry_filled := true, position_size := s1.config.amount } }, true)
    else if struthy s1.config.pair ∧ qtruthy s1.config.amount ∧ qtruthy s1.config.entry_price then
      match env.entryCreate with
      | some oid => ({ s1 with orders := ordSet ("entry") oid s1.orders }, true)
      | none => (s1, false)
    else (s1, false)

/-- The state place_trade prepares before submitting the entry: execution
state reset, then trade_active set. -/
def afterReset (s : BotState) : BotState :=
  { s with config := { TradeConfig.reset_trade_state s.config with trade_active := true } }

/-- TradeBot.place_trade: validate, refuse when already active, reset state and
mark active, submit the entry; on entry-submission failure roll trade_active
back to false and report the failure. -/
def place_trade (s : BotState) (env : PlaceEnv) : BotState × Bool × String :=
  let v := s.config.is_valid_for_trading
  if ¬ v.1 then (s, false, ("Configuration invalid: ") ++ v.2)
  else if s.config.trade_active then (s, false, ("Trade already active"))
  else
    let r := place_entry_order (afterReset s) env
    if ¬ r.2 then
      ({ r.1 with config := { r.1.config with trade_active := false } }, false,
       ("Failed to place entry order"))
    else
      (r.1, true,
       ("Trade placed successfully in ") ++
         (if r.1.config.dry_run then ("DRY RUN") else ("LIVE")) ++ (" mode"))

end TB

namespace TB2

/-- TradeBot._handle_tp_fill (trade_bot_1754639472327.py): mark the level's
fill flag, then, when position_size and the level's percent are truthy, reduce
position_size by positionSize * percent / 100 (the pre-fill size); if level 3
just filled with trailing enabled, activate trailing seeded with the fill
price.  When the reduction guard fails the function returns with the flag
already set and nothing else changed. -/
def handle_tp_fill (c : TradeConfig) (level : Nat) (price : ℚ) : TradeConfig :=
  match (if level = 1 then some ({ c with tp1_filled := true }, c.tp1_percent)
         else if level = 2 then some ({ c with tp2_filled := true }, c.tp2_percent)
         else if level = 3 then some ({ c with tp3_filled := true }, c.tp3_percent)
         else none) with
  | none => c
  | some (c1, percent) =>
    if qtruthy c1.position_size ∧ qtruthy percent then
      let pos := c1.position_size.getD 0
      let closed := pos * percent.getD 0 / 100
      let c2 := { c1 with position_size := some (pos - closed) }
      if level = 3 ∧ c2.trailing_stop_enabled then
        { c2 with trailing_active := true, highest_price := some price }
      else c2
    else c1

/-- TradeBot._check_take_profit_fills (trade_bot_1754639472327.py): test each
unfilled configured level against the tick price in increasing order and
handle a fill via _handle_tp_fill. -/
def check_take_profit_fills (c : TradeConfig) (current_price : ℚ) : TradeConfig :=
  let c :=
    if ¬ c.tp1_filled ∧ qtruthy c.tp1_price ∧
       ((c.side = some ("long") ∧ c.tp1_price.getD 0 ≤ current_price) ∨
        (c.side = some ("short") ∧ current_price ≤ c.tp1_price.getD 0)) then
      handle_tp_fill c 1 current_price
    else c
  let c :=
    if ¬ c.tp2_filled ∧ qtruthy c.tp2_price ∧
       ((c.side = some ("long") ∧ c.tp2_price.getD 0 ≤ current_price) ∨
        (c.side = some ("short") ∧ current_price ≤ c.tp2_price.getD 0)) then
      handle_tp_fill c 2 current_price
    else c
  let c :=
    if ¬ c.tp3_filled ∧ qtruthy c.tp3_price ∧
       ((c.side = some ("long") ∧ c.tp3_price.getD 0 ≤ current_price) ∨
        (c.side = some ("short") ∧ current_price ≤ c.tp3_price.getD 0)) then
      handle_tp_fill c 3 current_price
    else c
  c

/-- TradeBot._handle_trailing_stop (trade_bot_1754639472327.py): gated on
trailing_active (set only by a TP3 fill) plus truthy trailing percent and
stored extreme; on a new favorable extreme, store it, compute the candidate
and apply it via _update_stop_loss only when strictly better than the current
stop.  The module's _update_stop_loss is textually identical to trade_bot.py's,
so TB.update_stop_loss is reused.  Second component: stop prices applied. -/
def handle_trailing_stop (s : BotState) (current_price : ℚ) (stopCreate : Option Nat) :
    BotState × List ℚ :=
  if ¬ s.config.trailing_active ∨ ¬ qtruthy s.config.trailing_stop_percent ∨
     ¬ qtruthy s.config.highest_price then (s, [])
  else
    let pct := s.config.trailing_stop_percent.getD 0
    let h := s.config.highest_price.getD 0
    if (s.config.side = some ("long") ∧ h < current_price) ∨
       (s.config.side = some ("short") ∧ current_price < h) then
      let s1 : BotState :=
        { s with config := { s.config with highest_price := some current_price } }
      let new_sl :=
        if s1.config.side = some ("long") then current_price * (1 - pct / 100)
        else current_price * (1 + pct / 100)
      if qtruthy s1.config.sl_price ∧
         ((s1.config.side = some ("long") ∧ s1.config.sl_price.getD 0 < new_sl) ∨
          (s1.config.side = some ("short") ∧ new_sl < s1.config.sl_price.getD 0)) then
        ((TB.update_stop_loss s1 new_sl stopCreate).1, [new_sl])
      else (s1, [])
    else (s, [])

/-- TradeBot.cancel_trade (trade_bot_1754639472327.py): the second definition
in the class body, which Python keeps as the effective method.  Refuses when no
trade is active; otherwise resets the execution state. -/
def cancel_trade (s : BotState) : BotState × Bool × String :=
  if ¬ s.config.trade_active then (s, false, ("No active trade to cancel"))
  else ({ s with config := s.config.reset_trade_state }, true, ("Trade cancelled successfully"))

end TB2

/-- A dry-run monitor tick at price p: every ticker fetch of the tick sees p,
no live-order oracle data. -/
def mkTick (p : ℚ) : TickIn where
  price := some p
  entryTicker := some p
  tpTicker := some p
  entryStatus := none
  tp1Status := none
  tp2Status := none
  tp3Status := none
  stopOnFill := none
  tpCreate1 := none
  tpCreate2 := none
  tpCreate3 := none
  stopBe := none
  stopTrail := none

/-- Dry-run long position in management: BTC/USDT, amount 1, entry 100 filled,
position 1, TP1 = (101, 50%). -/
def cfgC1 : TradeConfig :=
  { TradeConfig.reset with
    pair := some ("BTC/USDT")
    side := some ("long")
    amount := some 1
    entry_price := some 100
    trade_active := true
    entry_filled := true
    position_size := some 1
    tp1_price := some 101
    tp1_percent := some 50 }

def botC1 : BotState where
  config := cfgC1
  monitoring := true
  orders := []

/-- Dry-run long position with stop 98, TP2 = (120, 50%), break-even trigger
tp2, trailing stop 1%. -/
def cfgC2 : TradeConfig :=
  { TradeConfig.reset with
    pair := some ("BTC/USDT")
    side := some ("long")
    amount := some 1
    entry_price := some 100
    trade_active := true
    entry_filled := true
    position_size := some 1
    sl_price := some 98
    tp2_price := some 120
    tp2_percent := some 50
    breakeven_enabled := true
    breakeven_trigger := some ("tp2")
    trailing_stop_enabled := true
    trailing_stop_percent := some 1 }

def botC2 : BotState where
  config := cfgC2
  monitoring := true
  orders := []

/-- Dry-run long position with stop 98 and trailing stop 1% enabled, no
take-profit levels configured and none filled. -/
def cfgC4 : TradeConfig :=
  { TradeConfig.reset with
    pair := some ("BTC/USDT")
    side := some ("long")
    amount := some 1
    entry_price := some 100
    trade_active := true
    entry_filled := true
    position_size := some 1
    sl_price := some 98
    trailing_stop_enabled := true
    trailing_stop_percent := some 1 }

def botC4 : BotState where
  config := cfgC4
  monitoring := true
  orders := []

/-- A bot with no active trade (fresh defaults). -/
def botC7 : BotState where
  config := TradeConfig.reset
  monitoring := false
  orders := []

/-- Config for the TB2 trailing-seed witness: trailing enabled, position 1,
TP3 percent 20. -/
def cfgW4 : TradeConfig :=
  { TradeConfig.reset with
    trailing_stop_enabled := true
    position_size := some 1
    tp3_percent := some 20 }

/-- Valid-for-trading config with market entry (entry price 0). -/
def cfgW5 : TradeConfig :=
  { TradeConfig.reset with
    pair := some ("BTC/USDT")
    side := some ("long")
    amount := some 1
    entry_price := some 0 }

def botW8 : BotState where
  config := cfgW5
  monitoring := false
  orders := []

/-- Gateway failing both the market-price fetch and the entry submission. -/
def envW8 : TB.PlaceEnv where
  marketTicker := none
  entryCreate := none

/-- Live-mode bot tracking a stop-loss handle with id 7. -/
def botW9 : BotState where
  config :=
    { TradeConfig.reset with
      pair := some ("BTC/USDT")
      side := some ("long")
      dry_run := false
      trade_active := true
      entry_filled := true
      position_size := some 1
      sl_price := some 98 }
  monitoring := true
  orders := [(("sl"), 7)]

/-- A managed position whose break-even move has already happened. -/
def botW3 : BotState where
  config := { cfgC2 with breakeven_moved := true, tp2_filled := true, sl_price := some 100 }
  monitoring := true
  orders := []

/-- Claim C10: a freshly constructed or fully reset plan defaults to dry-run:
TradeConfig.reset sets dry_run to true, reset_trade_state never touches it, and
only the explicit set_dry_run call changes it. -/
theorem c10_default_dry_run :
    TradeConfig.reset.dry_run = true ∧
    (∀ c : TradeConfig, (TradeConfig.reset_trade_state c).dry_run = c.dry_run) ∧
    (∀ (c : TradeConfig) (b : Bool), (TradeConfig.set_dry_run c b).dry_run = b) :=
  ⟨rfl, fun _ => rfl, fun _ _ => rfl⟩

/-- Claim C6: contrary to the claim, set_entry rejects 0 exactly like every
other non-positive price (returning failure and leaving the record unchanged),
even though the command handlers call set_entry(0) to request a market order;
set_sl and set_tp likewise reject non-positive prices without mutation. -/
theorem c6_set_entry_rejects_zero :
    (∀ c : TradeConfig, TradeConfig.set_entry c 0 = (c, false)) ∧
    (∀ (c : TradeConfig) (p : ℚ), p ≤ 0 → TradeConfig.set_entry c p = (c, false)) ∧
    (∀ (c : TradeConfig) (p : ℚ), p ≤ 0 → TradeConfig.set_sl c p = (c, false)) ∧
    (∀ (c : TradeConfig) (level : Nat) (p q : ℚ), p ≤ 0 →
      TradeConfig.set_tp c level p q = (c, false)) := by
  refine ⟨fun c => ?_, fun c p h => ?_, fun c p h => ?_, fun c level p q h => ?_⟩
  · simp [TradeConfig.set_entry]
  · simp [TradeConfig.set_entry, not_lt.mpr h]
  · simp [TradeConfig.set_sl, not_lt.mpr h]
  · unfold TradeConfig.set_tp
    rw [if_pos]
    exact Or.inr (Or.inl h)

/-- Claim C6 witness: concrete rejected calls. -/
theorem c6_set_entry_rejects_zero_witness :
    TradeConfig.set_entry TradeConfig.reset 0 = (TradeConfig.reset, false) ∧
    TradeConfig.set_sl TradeConfig.reset (-2) = (TradeConfig.reset, false) ∧
    TradeConfig.set_tp TradeConfig.reset 1 (-3) 50 = (TradeConfig.reset, false) :=
  ⟨c6_set_entry_rejects_zero.1 TradeConfig.reset,
   c6_set_entry_rejects_zero.2.2.1 TradeConfig.reset (-2) (by decide),
   c6_set_entry_rejects_zero.2.2.2 TradeConfig.reset 1 (-3) 50 (by decide)⟩

/-- Claim C1: in the scenario of the claim (dry run, amount 1, TP1 percent 50,
TP1 fill condition met), trade_bot.py's _check_tp_fills sets the fill flag but
leaves position_size at 1 instead of reducing it to 0.5; the duplicated
module's _handle_tp_fill performs the claimed reduction to exactly 0.5. -/
theorem c1_tp_fill_divergence :
    ((TB.check_tp_fills botC1 (mkTick 101)).config.tp1_filled = true ∧
     (TB.check_tp_fills botC1 (mkTick 101)).config.position_size = some 1) ∧
    ((TB2.handle_tp_fill cfgC1 1 101).tp1_filled = true ∧
     (TB2.handle_tp_fill cfgC1 1 101).position_size = some (1 / 2)) := by
  norm_num +decide [TB.check_tp_fills, TB2.handle_tp_fill, mkTick, botC1, cfgC1,
    TradeConfig.reset, qtruthy, struthy]

/-- Claim C2 counterexample: in a dry-run long run with trailing 1% and
break-even trigger tp2, the trailing step first raises the stop from 98 to
108.9; the break-even step then applies 100, which is lower than the stop in
force — the applied stop-loss updates are not monotone. -/
theorem c2_counterexample_breakeven_lowers_stop :
    cfgC2.side = some ("long") ∧ cfgC2.sl_price = some 98 ∧
    (TB.run botC2 [mkTick 110, mkTick 120]).2 = [1089 / 10, 100, 1188 / 10] ∧
    TB.monotoneUpdates 98 ((TB.run botC2 [mkTick 110, mkTick 120]).2) = false := by
  norm_num +decide [TB.run, TB.monitor_trade, TB.manage_position, TB.check_tp_fills,
    TB.check_breakeven, TB.handle_trailing_stop, TB.update_stop_loss,
    TB.place_stop_loss, TB.monotoneUpdates, ordGet, ordSet, ordDel,
    mkTick, botC2, cfgC2, TradeConfig.reset, qtruthy, struthy]

/-- Claim C4 counterexample: with trailing enabled and no take-profit filled
(none even configured), a single trade_bot.py monitor tick still updates the
extreme price and moves the stop loss through the trailing logic. -/
theorem c4_counterexample_trailing_without_tp_fill :
    (cfgC4.tp1_filled = false ∧ cfgC4.tp2_filled = false ∧ cfgC4.tp3_filled = false) ∧
    cfgC4.trailing_stop_enabled = true ∧ cfgC4.sl_price = some 98 ∧
    cfgC4.highest_price = none ∧
    (TB.monitor_trade botC4 (mkTick 110)).1.config.sl_price = some (1089 / 10) ∧
    (TB.monitor_trade botC4 (mkTick 110)).1.config.highest_price = some 110 ∧
    (TB.monitor_trade botC4 (mkTick 110)).1.config.trailing_active = true := by
  norm_num +decide [TB.monitor_trade, TB.manage_position, TB.check_tp_fills,
    TB.check_breakeven, TB.handle_trailing_stop, TB.update_stop_loss,
    TB.place_stop_loss, ordGet, ordSet, ordDel,
    mkTick, botC4, cfgC4, TradeConfig.reset, qtruthy, struthy]

/-- Claim C7 counterexample: trade_bot.py's cancel_trade on an inactive plan
returns success (True), not the claimed failure result. -/
theorem c7_counterexample_cancel_inactive_returns_success :
    botC7.config.trade_active = false ∧ TB.cancel_trade botC7 = (botC7, true) := by
  decide

/-- Claim C7 (amended): the duplicated module's effective cancel_trade returns
failure with message No active trade to cancel and performs no mutation when no
trade is active. -/
theorem c7_cancel_inactive_fails_without_mutation (s : BotState)
    (h : s.config.trade_active = false) :
    TB2.cancel_trade s = (s, false, ("No active trade to cancel")) := by
  simp [TB2.cancel_trade, h]

/-- Claim C7 witness: the amended statement at the concrete inactive bot. -/
theorem c7_cancel_inactive_fails_without_mutation_witness :
    TB2.cancel_trade botC7 = (botC7, false, ("No active trade to cancel")) :=
  c7_cancel_inactive_fails_without_mutation botC7 rfl

theorem place_stop_loss_config (s : BotState) (oc : Option Nat) :
    (TB.place_stop_loss s oc).1.config = s.config := by
  unfold TB.place_stop_loss
  repeat' split
  all_goals rfl

theorem place_take_profit_config (s : BotState) (level : Nat) (oc : Option Nat) :
    (TB.place_take_profit s level oc).1.config = s.config := by
  unfold TB.place_take_profit
  dsimp only
  repeat' split
  all_goals rfl

theorem place_all_take_profits_config (s : BotState) (t : TickIn) :
    (TB.place_all_take_profits s t).config = s.config := by
  unfold TB.place_all_take_profits
  dsimp only
  repeat' split
  all_goals simp [place_take_profit_config]

theorem update_stop_loss_config (s : BotState) (np : ℚ) (oc : Option Nat) :
    (TB.update_stop_loss s np oc).1.config = { s.config with sl_price := some np } := by
  unfold TB.update_stop_loss
  dsimp only
  repeat' split
  all_goals simp [place_stop_loss_config]

theorem check_entry_fill_trade_active (s : BotState) (t : TickIn) :
    (TB.check_entry_fill s t).config.trade_active = s.config.trade_active := by
  unfold TB.check_entry_fill
  dsimp only
  repeat' split
  all_goals simp [place_all_take_profits_config, place_stop_loss_config]

theorem check_entry_fill_breakeven_moved (s : BotState) (t : TickIn) :
    (TB.check_entry_fill s t).config.breakeven_moved = s.config.breakeven_moved := by
  unfold TB.check_entry_fill
  dsimp only
  repeat' split
  all_goals simp [place_all_take_profits_config, place_stop_loss_config]

theorem check_tp_fills_breakeven_moved (s : BotState) (t : TickIn) :
    (TB.check_tp_fills s t).config.breakeven_moved = s.config.breakeven_moved := by
  unfold TB.check_tp_fills
  repeat' split
  all_goals
    simp only [apply_ite (fun c : TradeConfig => c.breakeven_moved),
      apply_ite (fun b : BotState => b.config.breakeven_moved), ite_self]

theorem check_tp_fills_trade_active (s : BotState) (t : TickIn) :
    (TB.check_tp_fills s t).config.trade_active = s.config.trade_active := by
  unfold TB.check_tp_fills
  repeat' split
  all_goals
    simp only [apply_ite (fun c : TradeConfig => c.trade_active),
      apply_ite (fun b : BotState => b.config.trade_active), ite_self]

theorem check_breakeven_trade_active (s : BotState) (oc : Option Nat) :
    (TB.check_breakeven s oc).1.config.trade_active = s.config.trade_active := by
  unfold TB.check_breakeven
  dsimp only
  repeat' split
  all_goals simp [update_stop_loss_config]

theorem handle_trailing_stop_trade_active (s : BotState) (p : ℚ) (oc : Option Nat) :
    (TB.handle_trailing_stop s p oc).1.config.trade_active = s.config.trade_active := by
  unfold TB.handle_trailing_stop
  dsimp only
  repeat' split
  all_goals simp [update_stop_loss_config]

theorem handle_trailing_stop_breakeven_moved (s : BotState) (p : ℚ) (oc : Option Nat) :
    (TB.handle_trailing_stop s p oc).1.config.breakeven_moved = s.config.breakeven_moved := by
  unfold TB.handle_trailing_stop
  dsimp only
  repeat' split
  all_goals simp [update_stop_loss_config]

theorem manage_position_trade_active (s : BotState) (p : ℚ) (t : TickIn) :
    (TB.manage_position s p t).1.config.trade_active = s.config.trade_active := by
  unfold TB.manage_position
  dsimp only
  repeat' split
  all_goals simp [check_tp_fills_trade_active, check_breakeven_trade_active,
    handle_trailing_stop_trade_active]

theorem monitor_trade_trade_active (s : BotState) (t : TickIn) :
    (TB.monitor_trade s t).1.config.trade_active = s.config.trade_active := by
  unfold TB.monitor_trade
  dsimp only
  repeat' split
  all_goals simp [check_entry_fill_trade_active, manage_position_trade_active]

theorem manage_position_moved (s : BotState) (p : ℚ) (t : TickIn)
    (h : s.config.breakeven_moved = true) :
    (TB.manage_position s p t).1.config.breakeven_moved = true := by
  unfold TB.manage_position
  dsimp only
  have h1 : (TB.check_tp_fills s t).config.breakeven_moved = true := by
    rw [check_tp_fills_breakeven_moved]; exact h
  simp only [h1, not_true, and_false, if_false]
  split
  · rw [handle_trailing_stop_breakeven_moved]; exact h1
  · exact h1

theorem manage_position_skips_breakeven (s : BotState) (p : ℚ) (t : TickIn)
    (h : s.config.breakeven_moved = true) :
    TB.manage_position s p t =
      (if (TB.check_tp_fills s t).config.trailing_stop_enabled then
        TB.handle_trailing_stop (TB.check_tp_fills s t) p t.stopTrail
       else (TB.check_tp_fills s t, [])) := by
  unfold TB.manage_position
  dsimp only
  have h1 : (TB.check_tp_fills s t).config.breakeven_moved = true := by
    rw [check_tp_fills_breakeven_moved]; exact h
  simp only [h1, not_true, and_false, if_false, List.nil_append]

theorem monitor_trade_moved (s : BotState) (t : TickIn)
    (h : s.config.breakeven_moved = true) :
    (TB.monitor_trade s t).1.config.breakeven_moved = true := by
  unfold TB.monitor_trade
  dsimp only
  repeat' split
  all_goals
    first
    | exact h
    | (show (TB.check_entry_fill s t, ([] : List ℚ)).1.config.breakeven_moved = true
       rw [check_entry_fill_breakeven_moved]
       exact h)
    | (apply manage_position_moved
       first
       | exact h
       | (rw [check_entry_fill_breakeven_moved]; exact h))

theorem states_head_cons (s : BotState) (ts : List TickIn) :
    ∃ l, TB.states s ts = s :: l := by
  cases ts
  · exact ⟨[], rfl⟩
  · exact ⟨_, rfl⟩

theorem states_all_moved (ts : List TickIn) :
    ∀ s : BotState, s.config.breakeven_moved = true →
      ∀ x ∈ TB.states s ts, x.config.breakeven_moved = true := by
  induction ts with
  | nil =>
    intro s h x hx
    simp only [TB.states, List.mem_singleton] at hx
    subst hx; exact h
  | cons t ts ih =>
    intro s h x hx
    simp only [TB.states, List.mem_cons] at hx
    rcases hx with rfl | hx2
    · exact h
    · exact ih _ (monitor_trade_moved s t h) x hx2

theorem risingEdges_zero (l : List Bool) (h : ∀ x ∈ l, x = true) :
    TB.risingEdges l = 0 := by
  induction l with
  | nil => rfl
  | cons a l ih =>
    cases l with
    | nil => rfl
    | cons b l2 =>
      have ha : a = true := h a (by simp)
      have hrest : ∀ x ∈ b :: l2, x = true := fun x hx => h x (List.mem_cons_of_mem _ hx)
      simp only [TB.risingEdges, ih hrest, ha]
      simp

theorem risingEdges_states_le_one (ts : List TickIn) :
    ∀ s : BotState,
      TB.risingEdges ((TB.states s ts).map (fun b => b.config.breakeven_moved)) ≤ 1 := by
  induction ts with
  | nil => intro s; simp [TB.states, TB.risingEdges]
  | cons t ts ih =>
    intro s
    obtain ⟨l, hl⟩ := states_head_cons (TB.monitor_trade s t).1 ts
    simp only [TB.states, hl, List.map_cons, TB.risingEdges]
    by_cases hm : (TB.monitor_trade s t).1.config.breakeven_moved = true
    · have hz : TB.risingEdges
          ((TB.monitor_trade s t).1.config.breakeven_moved ::
            l.map (fun b => b.config.breakeven_moved)) = 0 := by
        have hmap : ((TB.monitor_trade s t).1 :: l).map (fun b => b.config.breakeven_moved) =
            (TB.monitor_trade s t).1.config.breakeven_moved ::
              l.map (fun b => b.config.breakeven_moved) := List.map_cons _ _ _
        rw [← hmap]
        apply risingEdges_zero
        intro x hx
        rw [List.mem_map] at hx
        obtain ⟨b, hb, rfl⟩ := hx
        refine states_all_moved ts (TB.monitor_trade s t).1 hm b ?_
        rw [hl]; exact hb
      rw [hz]
      split <;> simp
    · have h0 : (TB.monitor_trade s t).1.config.breakeven_moved = false := by
        cases hx : (TB.monitor_trade s t).1.config.breakeven_moved
        · rfl
        · exact absurd hx hm
      rw [if_neg]
      · have hrec := ih (TB.monitor_trade s t).1
        rw [hl, List.map_cons] at hrec
        simpa using hrec
      · rintro ⟨-, hcontr⟩; exact hm hcontr

/-- Claim C3: the break-even move happens at most once per trade lifecycle:
breakeven_moved is monotone (never reset by a monitor tick), any run of monitor
ticks shows at most one false-to-true edge of breakeven_moved, and once it is
true _manage_position skips the break-even check entirely (ticks perform only
TP-fill detection and trailing). -/
theorem c3_breakeven_applied_at_most_once :
    (∀ (s : BotState) (t : TickIn), s.config.breakeven_moved = true →
        (TB.monitor_trade s t).1.config.breakeven_moved = true) ∧
    (∀ (s : BotState) (ts : List TickIn),
        TB.risingEdges ((TB.states s ts).map (fun b => b.config.breakeven_moved)) ≤ 1) ∧
    (∀ (s : BotState) (p : ℚ) (t : TickIn), s.config.breakeven_moved = true →
        TB.manage_position s p t =
          (if (TB.check_tp_fills s t).config.trailing_stop_enabled then
            TB.handle_trailing_stop (TB.check_tp_fills s t) p t.stopTrail
           else (TB.check_tp_fills s t, []))) :=
  ⟨monitor_trade_moved, fun s ts => risingEdges_states_le_one ts s,
   manage_position_skips_breakeven⟩

theorem c3_breakeven_applied_at_most_once_witness :
    (TB.monitor_trade botW3 (mkTick 110)).1.config.breakeven_moved = true ∧
    TB.risingEdges ((TB.states botW3 [mkTick 110]).map (fun b => b.config.breakeven_moved)) ≤ 1 ∧
    TB.manage_position botW3 110 (mkTick 110) =
      (if (TB.check_tp_fills botW3 (mkTick 110)).config.trailing_stop_enabled then
        TB.handle_trailing_stop (TB.check_tp_fills botW3 (mkTick 110)) 110 (mkTick 110).stopTrail
       else (TB.check_tp_fills botW3 (mkTick 110), [])) :=
  ⟨c3_breakeven_applied_at_most_once.1 botW3 (mkTick 110) rfl,
   c3_breakeven_applied_at_most_once.2.1 botW3 [mkTick 110],
   c3_breakeven_applied_at_most_once.2.2 botW3 110 (mkTick 110) rfl⟩

/-- Claim C2 (amended): the trailing-stop step alone is monotone: a trade_bot.py
trailing tick never lowers the stop of a long position and never raises the stop
of a short position (a candidate not strictly better than the current stop is
discarded).  The break-even move is excluded: as the counterexample shows, it
can apply a less favorable stop. -/
theorem c2_trailing_updates_monotone (s : BotState) (p : ℚ) (oc : Option Nat) (sl0 : ℚ)
    (hsl : s.config.sl_price = some sl0) :
    (s.config.side = some ("long") →
      ∃ sl1, (TB.handle_trailing_stop s p oc).1.config.sl_price = some sl1 ∧ sl0 ≤ sl1) ∧
    (s.config.side = some ("short") →
      ∃ sl1, (TB.handle_trailing_stop s p oc).1.config.sl_price = some sl1 ∧ sl1 ≤ sl0) := by
  constructor
  · intro hside
    by_cases hguard : ¬ qtruthy s.config.trailing_stop_percent = true ∨
        ¬ qtruthy s.config.sl_price = true
    · refine ⟨sl0, ?_, le_refl sl0⟩
      simp only [TB.handle_trailing_stop, if_pos hguard]
      exact hsl
    · by_cases hext : ¬ qtruthy s.config.highest_price = true ∨
          s.config.highest_price.getD 0 < p
      · by_cases hcmp : s.config.sl_price.getD 0 <
            p - p * (s.config.trailing_stop_percent.getD 0 / 100)
        · refine ⟨p - p * (s.config.trailing_stop_percent.getD 0 / 100), ?_, ?_⟩
          · simp only [TB.handle_trailing_stop, if_neg hguard, if_pos hside, if_pos hext,
              if_pos hcmp]
            rw [update_stop_loss_config]
          · rw [hsl] at hcmp
            simp only [Option.getD_some] at hcmp
            exact le_of_lt hcmp
        · refine ⟨sl0, ?_, le_refl sl0⟩
          simp only [TB.handle_trailing_stop, if_neg hguard, if_pos hside, if_pos hext,
            if_neg hcmp]
          exact hsl
      · refine ⟨sl0, ?_, le_refl sl0⟩
        simp only [TB.handle_trailing_stop, if_neg hguard, if_pos hside, if_neg hext]
        exact hsl
  · intro hside
    have hnl : ¬ s.config.side = some ("long") := by
      rw [hside]; decide
    by_cases hguard : ¬ qtruthy s.config.trailing_stop_percent = true ∨
        ¬ qtruthy s.config.sl_price = true
    · refine ⟨sl0, ?_, le_refl sl0⟩
      simp only [TB.handle_trailing_stop, if_pos hguard]
      exact hsl
    · by_cases hext : ¬ qtruthy s.config.highest_price = true ∨
          p < s.config.highest_price.getD 0
      · by_cases hcmp : p + p * (s.config.trailing_stop_percent.getD 0 / 100) <
            s.config.sl_price.getD 0
        · refine ⟨p + p * (s.config.trailing_stop_percent.getD 0 / 100), ?_, ?_⟩
          · simp only [TB.handle_trailing_stop, if_neg hguard, if_neg hnl, if_pos hext,
              if_pos hcmp]
            rw [update_stop_loss_config]
          · rw [hsl] at hcmp
            simp only [Option.getD_some] at hcmp
            exact le_of_lt hcmp
        · refine ⟨sl0, ?_, le_refl sl0⟩
          simp only [TB.handle_trailing_stop, if_neg hguard, if_neg hnl, if_pos hext,
            if_neg hcmp]
          exact hsl
      · refine ⟨sl0, ?_, le_refl sl0⟩
        simp only [TB.handle_trailing_stop, if_neg hguard, if_neg hnl, if_neg hext]
        exact hsl

theorem c2_trailing_updates_monotone_witness :
    ∃ sl1, (TB.handle_trailing_stop botC2 110 none).1.config.sl_price = some sl1 ∧
      (98 : ℚ) ≤ sl1 :=
  (c2_trailing_updates_monotone botC2 110 none 98 rfl).1 rfl

theorem struthy_iff (o : Option String) (h : o ≠ some ("")) : struthy o = true ↔ o ≠ none := by
  cases o with
  | none => simp [struthy]
  | some s =>
    have hs : s ≠ "" := fun hh => h (by rw [hh])
    simp [struthy, hs]

theorem qtruthy_iff (o : Option ℚ) (h : o ≠ some 0) : qtruthy o = true ↔ o ≠ none := by
  cases o with
  | none => simp [qtruthy]
  | some x =>
    have hx : x ≠ 0 := fun hh => h (by rw [hh])
    simp [qtruthy, hx]

theorem is_valid_for_trading_char (c : TradeConfig) :
    (TradeConfig.is_valid_for_trading c).1 = true ↔
      (struthy c.pair = true ∧ struthy c.side = true ∧ qtruthy c.amount = true ∧
        c.entry_price ≠ none ∧ ¬ (100 < TradeConfig.total_tp_percent c)) := by
  unfold TradeConfig.is_valid_for_trading
  split_ifs with h1 h2 h3 h4 h5 <;> simp_all

/-- Claim C5: is_valid_for_trading returns true iff pair, side, amount and entry
price are set (entry may be exactly 0 for market) and the total percent of the
configured take-profit levels is at most 100; stated for records whose set
fields are non-degenerate (pair and side not the empty string, amount not 0),
which every setter guarantees. -/
theorem c5_is_valid_for_trading_iff (c : TradeConfig)
    (hp : c.pair ≠ some ("")) (hs : c.side ≠ some ("")) (ha : c.amount ≠ some 0) :
    (TradeConfig.is_valid_for_trading c).1 = true ↔
      (c.pair ≠ none ∧ c.side ≠ none ∧ c.amount ≠ none ∧ c.entry_price ≠ none ∧
        TradeConfig.total_tp_percent c ≤ 100) := by
  rw [is_valid_for_trading_char, struthy_iff c.pair hp, struthy_iff c.side hs,
    qtruthy_iff c.amount ha, not_lt]

theorem c5_is_valid_for_trading_iff_witness :
    (TradeConfig.is_valid_for_trading cfgW5).1 = true ↔
      (cfgW5.pair ≠ none ∧ cfgW5.side ≠ none ∧ cfgW5.amount ≠ none ∧
        cfgW5.entry_price ≠ none ∧ TradeConfig.total_tp_percent cfgW5 ≤ 100) :=
  c5_is_valid_for_trading_iff cfgW5 (by decide) (by decide) (by decide)

/-- Claim C4 (amended): in trade_bot_1754639472327.py the trailing logic is
gated on trailing_active, which within a lifecycle is set only by a TP3 fill
with trailing enabled, seeding highest_price with the fill-tick price; while
trailing_active is false a trailing tick changes nothing.  (In trade_bot.py the
claim fails: trailing runs with no TP-fill precondition, see the
counterexample.) -/
theorem c4_trailing_gated_and_seeded :
    (∀ (s : BotState) (p : ℚ) (oc : Option Nat), s.config.trailing_active = false →
        TB2.handle_trailing_stop s p oc = (s, [])) ∧
    (∀ (c : TradeConfig) (p : ℚ), c.trailing_stop_enabled = true →
        qtruthy c.position_size = true → qtruthy c.tp3_percent = true →
        ((TB2.handle_tp_fill c 3 p).trailing_active = true ∧
         (TB2.handle_tp_fill c 3 p).highest_price = some p)) ∧
    (∀ (c : TradeConfig) (level : Nat) (p : ℚ), level ≠ 3 →
        ((TB2.handle_tp_fill c level p).trailing_active = c.trailing_active ∧
         (TB2.handle_tp_fill c level p).highest_price = c.highest_price)) := by
  refine ⟨fun s p oc h => ?_, fun c p hts hpos hpct => ?_, fun c level p h => ?_⟩
  · simp [TB2.handle_trailing_stop, h]
  · simp [TB2.handle_tp_fill, hts, hpos, hpct]
  · by_cases h1 : level = 1
    · subst h1
      simp [TB2.handle_tp_fill, apply_ite (fun c : TradeConfig => c.trailing_active),
        apply_ite (fun c : TradeConfig => c.highest_price)]
    · by_cases h2 : level = 2
      · subst h2
        simp [TB2.handle_tp_fill, apply_ite (fun c : TradeConfig => c.trailing_active),
          apply_ite (fun c : TradeConfig => c.highest_price)]
      · simp [TB2.handle_tp_fill, h1, h2, h]

theorem c4_trailing_gated_and_seeded_witness :
    TB2.handle_trailing_stop botC4 115 none = (botC4, []) ∧
    ((TB2.handle_tp_fill cfgW4 3 105).trailing_active = true ∧
     (TB2.handle_tp_fill cfgW4 3 105).highest_price = some 105) :=
  ⟨c4_trailing_gated_and_seeded.1 botC4 115 none rfl,
   c4_trailing_gated_and_seeded.2.1 cfgW4 105 rfl (by decide) (by decide)⟩

/-- Claim C8: when the plan validates and no trade is active, a failed entry
submission makes place_trade report failure and roll trade_active back to
false; and no monitor tick (in particular no failed protective-order placement
after the entry fill) ever changes trade_active. -/
theorem c8_entry_failure_rolls_back :
    (∀ (s : BotState) (env : TB.PlaceEnv),
        (TradeConfig.is_valid_for_trading s.config).1 = true →
        s.config.trade_active = false →
        (TB.place_entry_order (TB.afterReset s) env).2 = false →
        ((TB.place_trade s env).2.1 = false ∧
         (TB.place_trade s env).2.2 = ("Failed to place entry order") ∧
         (TB.place_trade s env).1.config.trade_active = false)) ∧
    (∀ (s : BotState) (t : TickIn),
        (TB.monitor_trade s t).1.config.trade_active = s.config.trade_active) := by
  constructor
  · intro s env hv hna hf
    unfold TB.place_trade
    dsimp only
    rw [if_neg (by simp [hv]), if_neg (by simp [hna]), if_pos (by simp [hf])]
    exact ⟨rfl, rfl, rfl⟩
  · exact monitor_trade_trade_active

theorem ordGet_ordDel (k : String) (l : List (String × Nat)) :
    ordGet k (ordDel k l) = none := by
  induction l with
  | nil => rfl
  | cons e l ih =>
    by_cases hk : e.1 = k
    · have hdel : ordDel k (e :: l) = ordDel k l := by simp [ordDel, List.filter, hk]
      rw [hdel]; exact ih
    · have hstep : ordGet k (ordDel k (e :: l)) = ordGet k (ordDel k l) := by
        simp [ordDel, ordGet, List.filter, List.find?, hk]
      rw [hstep]; exact ih

theorem place_stop_loss_of_false (s : BotState) (oc : Option Nat)
    (h : (TB.place_stop_loss s oc).2 = false) : (TB.place_stop_loss s oc).1 = s := by
  unfold TB.place_stop_loss at h ⊢
  repeat' split at h
  all_goals simp_all

/-- Claim C9: _update_stop_loss is not atomic on failure: in live mode with a
tracked stop handle, when the new stop submission fails the sl_price has
already been overwritten with the new price and the old handle has already been
cancelled (its id is in the cancelled list) and removed from tracking. -/
theorem c9_update_stop_loss_not_atomic (s : BotState) (np : ℚ) (oc : Option Nat) (oid : Nat)
    (hdry : s.config.dry_run = false) (hpair : struthy s.config.pair = true)
    (hslord : ordGet ("sl") s.orders = some oid)
    (hfail : (TB.update_stop_loss s np oc).2.1 = false) :
    (TB.update_stop_loss s np oc).1.config.sl_price = some np ∧
    ordGet ("sl") (TB.update_stop_loss s np oc).1.orders = none ∧
    (TB.update_stop_loss s np oc).2.2 = [oid] := by
  have e : TB.update_stop_loss s np oc =
      ((TB.place_stop_loss
          { config := { s.config with sl_price := some np },
            monitoring := s.monitoring,
            orders := ordDel ("sl") s.orders } oc).1,
       (TB.place_stop_loss
          { config := { s.config with sl_price := some np },
            monitoring := s.monitoring,
            orders := ordDel ("sl") s.orders } oc).2,
       [oid]) := by
    unfold TB.update_stop_loss
    dsimp only
    rw [hslord]
    dsimp only
    rw [if_pos ⟨by simp [hdry], hpair⟩]
  rw [e] at hfail ⊢
  dsimp only at hfail ⊢
  have hkeep := place_stop_loss_of_false _ oc hfail
  refine ⟨?_, ?_, rfl⟩
  · rw [place_stop_loss_config]
  · rw [hkeep]
    exact ordGet_ordDel ("sl") s.orders

theorem c8_entry_failure_rolls_back_witness :
    (TB.place_trade botW8 envW8).2.1 = false ∧
    (TB.place_trade botW8 envW8).2.2 = ("Failed to place entry order") ∧
    (TB.place_trade botW8 envW8).1.config.trade_active = false := by
  have htp : TradeConfig.total_tp_percent cfgW5 = 0 := by
    simp [TradeConfig.total_tp_percent, cfgW5, TradeConfig.reset, qtruthy]
  refine c8_entry_failure_rolls_back.1 botW8 envW8 ?_ rfl ?_
  · exact (is_valid_for_trading_char cfgW5).mpr
      ⟨by decide, by decide, by decide, by decide, by rw [htp]; decide⟩
  · decide

theorem c9_update_stop_loss_not_atomic_witness :
    (TB.update_stop_loss botW9 95 none).1.config.sl_price = some 95 ∧
    ordGet ("sl") (TB.update_stop_loss botW9 95 none).1.orders = none ∧
    (TB.update_stop_loss botW9 95 none).2.2 = [7] :=
  c9_update_stop_loss_not_atomic botW9 95 none 7 rfl (by decide) (by decide) (by decide)
